import Mathlib

/-!
Verification of the filter expression subsystem (src/client/filters.ts and
src/client/filters.types.ts): the tagged-union filter data model, the fluent
FilterBuilder, the field-scoped predicate constructors, the standalone
combinators, and the structural validator.

JavaScript numbers are modelled as exact rationals extended with the three
non-finite values (NaN, +Infinity, -Infinity); the comparison operators mirror
ECMAScript semantics (every comparison involving NaN is false).  The checks in
the source only compare numbers against constants, so no rounding behaviour is
involved and the rational model is faithful.
-/

namespace Mnemo

/-- A JavaScript number: a finite value (modelled exactly as a rational) or one
of the three non-finite values NaN, +Infinity, -Infinity. -/
inductive JsNum where
  | fin (q : ℚ)
  | nan
  | posInf
  | negInf
deriving DecidableEq, Repr

/-- ECMAScript strict less-than on numbers: any comparison involving NaN is
false; the infinities compare as expected. -/
def JsNum.lt : JsNum → JsNum → Bool
  | .nan, _ => false
  | _, .nan => false
  | .fin a, .fin b => decide (a < b)
  | .fin _, .posInf => true
  | .fin _, .negInf => false
  | .posInf, _ => false
  | .negInf, .negInf => false
  | .negInf, _ => true

/-- ECMAScript less-than-or-equal on numbers: false whenever NaN is involved. -/
def JsNum.le : JsNum → JsNum → Bool
  | .nan, _ => false
  | _, .nan => false
  | .fin a, .fin b => decide (a ≤ b)
  | .fin _, .posInf => true
  | .fin _, .negInf => false
  | .posInf, .posInf => true
  | .posInf, _ => false
  | .negInf, _ => true

/-- ECMAScript greater-than: a > b is b < a (false whenever NaN is involved). -/
def JsNum.gt (a b : JsNum) : Bool := JsNum.lt b a

/-- Number.isFinite / the global isFinite on a number. -/
def JsNum.isFinite : JsNum → Bool
  | .fin _ => true
  | _ => false

/-- A value allowed on the right of an equality match in the typed API:
string | number | boolean (filters.types.ts, MatchFilter.value). -/
inductive JsValue where
  | str (s : String)
  | num (n : JsNum)
  | bool (b : Bool)
deriving DecidableEq, Repr

/-- Geographic point coordinates (filters.types.ts, GeoPoint). -/
structure GeoPoint where
  lon : JsNum
  lat : JsNum
deriving DecidableEq, Repr

/-- The Filter / FilterCondition tagged union of filters.types.ts.  Leaf kinds
carry the wire-shape fields of MatchFilter, RangeFilter, GeoBoundingBoxFilter
and GeoRadiusFilter; the three composites carry their child lists.  The
constructor names are the wire keys of the corresponding shapes. -/
inductive Filter where
  | match_ (key : String) (value : JsValue)
  | range_ (key : String) (gte lte gt lt : Option JsNum)
  | geo_bounding_box (key : String) (top_left bottom_right : GeoPoint)
  | geo_radius (key : String) (center : GeoPoint) (radius : JsNum)
  | must (children : List Filter)
  | should (children : List Filter)
  | must_not (children : List Filter)

/-- The FilterValidationError of filters.types.ts: a message plus optional
filter-kind and field context. -/
structure FilterValidationError where
  message : String
  filterType : Option String
  field : Option String
deriving DecidableEq, Repr

/-- The three values of FilterBuilder.logicalOperator. -/
inductive LogicalOp where
  | must
  | should
  | must_not
deriving DecidableEq, Repr

/-- The mutable state of a FilterBuilder: the accumulated conditions array and
the current logical operator (initially must). -/
structure FilterBuilder where
  conditions : List Filter
  logicalOperator : LogicalOp

/-- new FilterBuilder(): empty conditions, logicalOperator = must. -/
def FilterBuilder.new : FilterBuilder := ⟨[], .must⟩

/-- FilterBuilder.addCondition: pushes the condition onto the array. -/
def FilterBuilder.addCondition (s : FilterBuilder) (condition : Filter) : FilterBuilder :=
  ⟨s.conditions ++ [condition], s.logicalOperator⟩

/-- FilterBuilder.and(): sets logicalOperator to must. -/
def FilterBuilder.and (s : FilterBuilder) : FilterBuilder :=
  ⟨s.conditions, .must⟩

/-- FilterBuilder.or(): sets logicalOperator to should. -/
def FilterBuilder.or (s : FilterBuilder) : FilterBuilder :=
  ⟨s.conditions, .should⟩

/-- FilterBuilder.not(): sets logicalOperator to must_not. -/
def FilterBuilder.not (s : FilterBuilder) : FilterBuilder :=
  ⟨s.conditions, .must_not⟩

/-- FilterBuilder.build(): null on an empty conditions array, the sole element
itself when exactly one condition is accumulated, otherwise the composite
selected by the current logicalOperator wrapping the whole conditions array. -/
def FilterBuilder.build (s : FilterBuilder) : Option Filter :=
  if s.conditions.length = 0 then
    none
  else if s.conditions.length = 1 then
    s.conditions[0]?
  else
    match s.logicalOperator with
    | .must => some (.must s.conditions)
    | .should => some (.should s.conditions)
    | .must_not => some (.must_not s.conditions)

/-- The composite wrapper build() selects for a given logical operator: the
switch statement of FilterBuilder.build on its ≥2-conditions path. -/
def compositeFor (op : LogicalOp) (cs : List Filter) : Filter :=
  match op with
  | .must => .must cs
  | .should => .should cs
  | .must_not => .must_not cs

/-- The loop body of FilterBuilder.andAll: build the argument builder and push
the result onto the parent's conditions if it is non-null. -/
def andAllStep (acc : FilterBuilder) (builder : FilterBuilder) : FilterBuilder :=
  match builder.build with
  | some filter => ⟨acc.conditions ++ [filter], acc.logicalOperator⟩
  | none => acc

/-- FilterBuilder.andAll(...builders): for each argument builder in order,
build it and push the resulting filter (when non-null) onto this builder's
conditions array. -/
def FilterBuilder.andAll (s : FilterBuilder) (builders : List FilterBuilder) : FilterBuilder :=
  builders.foldl andAllStep s

/-- The loop body of FilterBuilder.orAny: build the argument builder and
collect the result when it is non-null. -/
def orAnyStep (acc : List Filter) (builder : FilterBuilder) : List Filter :=
  match builder.build with
  | some filter => acc ++ [filter]
  | none => acc

/-- FilterBuilder.orAny(...builders): collect the non-null build results of the
argument builders; when that collection is non-empty, push a single
should-composite containing them all onto this builder's conditions array. -/
def FilterBuilder.orAny (s : FilterBuilder) (builders : List FilterBuilder) : FilterBuilder :=
  let orConditions := builders.foldl orAnyStep []
  if 0 < orConditions.length then
    ⟨s.conditions ++ [Filter.should orConditions], s.logicalOperator⟩
  else s

/-- FieldFilter: the transient value returned by FilterBuilder.where(field),
holding the field name and the owning builder. -/
structure FieldFilter where
  field : String
  builder : FilterBuilder

/-- FilterBuilder.where(field) (named whereField here since where is a Lean
keyword): starts a field-scoped predicate constructor. -/
def FilterBuilder.whereField (s : FilterBuilder) (field : String) : FieldFilter :=
  ⟨field, s⟩

/-- FieldFilter.equals(value): appends a match condition to the owning
builder. -/
def FieldFilter.equals (f : FieldFilter) (value : JsValue) : FilterBuilder :=
  f.builder.addCondition (.match_ f.field value)

/-- FieldFilter.notEquals(value): appends the match condition wrapped in a
must_not composite. -/
def FieldFilter.notEquals (f : FieldFilter) (value : JsValue) : FilterBuilder :=
  f.builder.addCondition (.must_not [.match_ f.field value])

/-- FieldFilter.greaterThan(value): appends a range condition with only gt. -/
def FieldFilter.greaterThan (f : FieldFilter) (value : JsNum) : FilterBuilder :=
  f.builder.addCondition (.range_ f.field none none (some value) none)

/-- FieldFilter.greaterThanOrEqual(value): appends a range condition with only
gte. -/
def FieldFilter.greaterThanOrEqual (f : FieldFilter) (value : JsNum) : FilterBuilder :=
  f.builder.addCondition (.range_ f.field (some value) none none none)

/-- FieldFilter.lessThan(value): appends a range condition with only lt. -/
def FieldFilter.lessThan (f : FieldFilter) (value : JsNum) : FilterBuilder :=
  f.builder.addCondition (.range_ f.field none none none (some value))

/-- FieldFilter.lessThanOrEqual(value): appends a range condition with only
lte. -/
def FieldFilter.lessThanOrEqual (f : FieldFilter) (value : JsNum) : FilterBuilder :=
  f.builder.addCondition (.range_ f.field none (some value) none none)

/-- FieldFilter.inRange(min, max): throws FilterValidationError when min > max
(ECMAScript comparison), before anything is appended; otherwise appends a range
condition with gte = min and lte = max.  The pair returned is the state of the
owning builder after the call together with the thrown error if any: on the
throwing path the builder is returned unchanged, since the source throws before
constructing or appending the condition. -/
def FieldFilter.inRange (f : FieldFilter) (min max : JsNum) :
    FilterBuilder × Option FilterValidationError :=
  if JsNum.gt min max then
    (f.builder, some ⟨"Range minimum cannot be greater than maximum", some "range", some f.field⟩)
  else
    (f.builder.addCondition (.range_ f.field (some min) (some max) none none), none)

/-- FieldFilter.matches(text): alias for equals. -/
def FieldFilter.matches (f : FieldFilter) (text : String) : FilterBuilder :=
  f.equals (.str text)

/-- FieldFilter.contains(value): alias for equals. -/
def FieldFilter.contains (f : FieldFilter) (value : JsValue) : FilterBuilder :=
  f.equals value

/-- FieldFilter.inBoundingBox(topLeft, bottomRight): appends a geo bounding box
condition. -/
def FieldFilter.inBoundingBox (f : FieldFilter) (topLeft bottomRight : GeoPoint) : FilterBuilder :=
  f.builder.addCondition (.geo_bounding_box f.field topLeft bottomRight)

/-- FieldFilter.withinRadius(center, radiusMeters): throws FilterValidationError
when radiusMeters <= 0 (ECMAScript comparison), before anything is appended;
otherwise appends a geo radius condition.  Same state-and-error convention as
inRange. -/
def FieldFilter.withinRadius (f : FieldFilter) (center : GeoPoint) (radiusMeters : JsNum) :
    FilterBuilder × Option FilterValidationError :=
  if JsNum.le radiusMeters (.fin 0) then
    (f.builder, some ⟨"Radius must be positive", some "geo_radius", some f.field⟩)
  else
    (f.builder.addCondition (.geo_radius f.field center radiusMeters), none)

/-- validateGeoPoint(point, context): requires a finite latitude in [-90, 90]
and a finite longitude in [-180, 180], throwing FilterValidationError (with no
filter-kind or field context) at the first violated check.  The typeof-object
and typeof-number guards of the source are vacuous here because the model is
typed. -/
def validateGeoPoint (point : GeoPoint) (context : String) :
    Except FilterValidationError Unit :=
  if !point.lat.isFinite then
    .error ⟨"Geographic point " ++ context ++ " latitude must be a finite number", none, none⟩
  else if !point.lon.isFinite then
    .error ⟨"Geographic point " ++ context ++ " longitude must be a finite number", none, none⟩
  else if JsNum.lt point.lat (.fin (-90)) || JsNum.lt (.fin 90) point.lat then
    .error ⟨"Geographic point " ++ context ++ " latitude must be between -90 and 90", none, none⟩
  else if JsNum.lt point.lon (.fin (-180)) || JsNum.lt (.fin 180) point.lon then
    .error ⟨"Geographic point " ++ context ++ " longitude must be between -180 and 180", none, none⟩
  else
    .ok ()

/-- The present bound values of a range body, in the order the source collects
them ([gte, lte, gt, lt] filtered to the defined entries). -/
def rangeValues (gte lte gt lt : Option JsNum) : List JsNum :=
  gte.toList ++ lte.toList ++ gt.toList ++ lt.toList

/-- validateFilterCondition(condition): checks the four leaf kinds.  A match
needs a non-empty key (the falsy-string check of the source); a range needs a
non-empty key, at least one bound, and finite bound values; the geo kinds need
a non-empty key and valid geo points; a geo radius additionally requires that
radius <= 0 be false (ECMAScript comparison - finiteness of the radius is not
checked).  A condition carrying none of the four leaf tags (the composites)
falls through every check and is accepted.  Exception propagation from
validateGeoPoint is written as an explicit match.  The match-value
nullish check of the source is unreachable in the typed model (a JsValue is
never undefined or null) and the typeof guards are vacuous. -/
def validateFilterCondition : Filter → Except FilterValidationError Unit
  | .match_ key _value =>
      if key = "" then .error ⟨"Match filter must have a valid key", some "match", none⟩
      else .ok ()
  | .range_ key gte lte gt lt =>
      if key = "" then .error ⟨"Range filter must have a valid key", some "range", none⟩
      else if gte.isNone && lte.isNone && gt.isNone && lt.isNone then
        .error ⟨"Range filter must have at least one condition", some "range", some key⟩
      else if (rangeValues gte lte gt lt).any (fun v => !v.isFinite) then
        .error ⟨"Range filter values must be finite numbers", some "range", some key⟩
      else .ok ()
  | .geo_bounding_box key top_left bottom_right =>
      if key = "" then
        .error ⟨"Geographic bounding box filter must have a valid key", some "geo_bounding_box", none⟩
      else
        match validateGeoPoint top_left "top_left" with
        | .error e => .error e
        | .ok _ =>
          match validateGeoPoint bottom_right "bottom_right" with
          | .error e => .error e
          | .ok _ => .ok ()
  | .geo_radius key center radius =>
      if key = "" then
        .error ⟨"Geographic radius filter must have a valid key", some "geo_radius", none⟩
      else
        match validateGeoPoint center "center" with
        | .error e => .error e
        | .ok _ =>
          if JsNum.le radius (.fin 0) then
            .error ⟨"Geographic radius must be a positive number", some "geo_radius", some key⟩
          else .ok ()
  | .must _ => .ok ()
  | .should _ => .ok ()
  | .must_not _ => .ok ()

/-- The loop of FilterBuilder.validate: validateFilterCondition on each
accumulated condition in insertion order, propagating the first thrown
error. -/
def validateConditions : List Filter → Except FilterValidationError Unit
  | [] => .ok ()
  | c :: rest =>
    match validateFilterCondition c with
    | .error e => .error e
    | .ok _ => validateConditions rest

/-- FilterBuilder.validate(): throws when the conditions array is empty,
otherwise validates each accumulated condition in order. -/
def FilterBuilder.validate (s : FilterBuilder) : Except FilterValidationError Unit :=
  if s.conditions.length = 0 then
    .error ⟨"Filter must have at least one condition", none, none⟩
  else validateConditions s.conditions

/-- createEqualityFilter(field, value). -/
def createEqualityFilter (field : String) (value : JsValue) : Filter :=
  .match_ field value

/-- createRangeFilter(field, min?, max?): gte from min and lte from max, each
when present; throws when both are omitted. -/
def createRangeFilter (field : String) (min max : Option JsNum) :
    Except FilterValidationError Filter :=
  if min.isNone && max.isNone then
    .error ⟨"Range filter must have at least min or max value", some "range", some field⟩
  else
    .ok (.range_ field min max none none)

/-- combineFiltersAnd(filters): throws on an empty list, returns the sole
element of a singleton, otherwise wraps the whole list in must.  The
length-based branches of the source are written as the equivalent match on the
list shape. -/
def combineFiltersAnd (filters : List Filter) : Except FilterValidationError Filter :=
  match filters with
  | [] => .error ⟨"Cannot combine empty filter array", none, none⟩
  | [f] => .ok f
  | fs => .ok (.must fs)

/-- combineFiltersOr(filters): throws on an empty list, returns the sole
element of a singleton, otherwise wraps the whole list in should. -/
def combineFiltersOr (filters : List Filter) : Except FilterValidationError Filter :=
  match filters with
  | [] => .error ⟨"Cannot combine empty filter array", none, none⟩
  | [f] => .ok f
  | fs => .ok (.should fs)

/-- negateFilter(filter): always wraps in a singleton must_not. -/
def negateFilter (filter : Filter) : Filter :=
  .must_not [filter]

/-- isEmptyFilter(filter): true for null/undefined (the none case) and for a
composite with an empty child list; false for every leaf. -/
def isEmptyFilter : Option Filter → Bool
  | none => true
  | some (.must cs) => cs.length = 0
  | some (.should cs) => cs.length = 0
  | some (.must_not cs) => cs.length = 0
  | some _ => false

/-- A JavaScript runtime value of the JSON-compatible fragment: null, boolean,
number, string, array, or plain object with ordered own properties.  Used to
state what serializeFilter followed by JSON.parse preserves. -/
inductive Js where
  | null
  | bool (b : Bool)
  | num (n : JsNum)
  | str (s : String)
  | arr (elems : List Js)
  | obj (fields : List (String × Js))

/-- The optional properties of a range body: a present bound contributes one
property, an absent one contributes none (it is simply not set by the
constructors, so JSON.stringify never sees it). -/
def optNumField (name : String) (v : Option JsNum) : List (String × Js) :=
  match v with
  | none => []
  | some n => [(name, Js.num n)]

/-- The runtime object for a GeoPoint. -/
def GeoPoint.toJs (p : GeoPoint) : Js :=
  .obj [("lat", .num p.lat), ("lon", .num p.lon)]

/-- The runtime value of a match value. -/
def JsValue.toJs : JsValue → Js
  | .str s => .str s
  | .num n => .num n
  | .bool b => .bool b

mutual
/-- The runtime object a Filter value denotes: exactly the object literals the
source constructors build ({match:{key,value}}, {range:{key,gte?,lte?,gt?,lt?}},
{geo_bounding_box:{key,bounding_box:{top_left,bottom_right}}},
{geo_radius:{key,center,radius}}, {must:[...]}, {should:[...]},
{must_not:[...]}), with properties in construction order. -/
def Filter.toJs : Filter → Js
  | .match_ key value =>
      .obj [("match", .obj [("key", .str key), ("value", value.toJs)])]
  | .range_ key gte lte gt lt =>
      .obj [("range", .obj (("key", Js.str key) ::
        (optNumField "gte" gte ++ optNumField "lte" lte ++
         optNumField "gt" gt ++ optNumField "lt" lt)))]
  | .geo_bounding_box key top_left bottom_right =>
      .obj [("geo_bounding_box", .obj [("key", .str key),
        ("bounding_box", .obj [("top_left", top_left.toJs),
                               ("bottom_right", bottom_right.toJs)])])]
  | .geo_radius key center radius =>
      .obj [("geo_radius", .obj [("key", .str key), ("center", center.toJs),
        ("radius", .num radius)])]
  | .must cs => .obj [("must", .arr (filterListToJs cs))]
  | .should cs => .obj [("should", .arr (filterListToJs cs))]
  | .must_not cs => .obj [("must_not", .arr (filterListToJs cs))]

/-- The runtime values of a list of child filters. -/
def filterListToJs : List Filter → List Js
  | [] => []
  | f :: fs => Filter.toJs f :: filterListToJs fs
end

mutual
/-- JSON.parse(JSON.stringify(x)) on a JSON-compatible runtime value:
JSON.stringify prints a finite number exactly (shortest round-tripping decimal)
and prints NaN, Infinity and -Infinity as null, and JSON.parse reads the text
back; so the composite is the identity except that every non-finite number
becomes null.  serializeFilter is JSON.stringify(filter, null, 2); the
indentation argument only inserts whitespace and does not affect the parsed
value. -/
def stringifyParse : Js → Js
  | .null => .null
  | .bool b => .bool b
  | .num n =>
    match n with
    | .fin q => .num (.fin q)
    | _ => .null
  | .str s => .str s
  | .arr elems => .arr (stringifyParseList elems)
  | .obj fields => .obj (stringifyParseObj fields)

/-- stringifyParse on each array element. -/
def stringifyParseList : List Js → List Js
  | [] => []
  | e :: es => stringifyParse e :: stringifyParseList es

/-- stringifyParse on each property value. -/
def stringifyParseObj : List (String × Js) → List (String × Js)
  | [] => []
  | (k, v) :: ms => (k, stringifyParse v) :: stringifyParseObj ms
end

mutual
/-- Whether every number inside a runtime value is finite. -/
def jsAllFinite : Js → Bool
  | .null => true
  | .bool _ => true
  | .num n => n.isFinite
  | .str _ => true
  | .arr elems => jsAllFiniteList elems
  | .obj fields => jsAllFiniteObj fields

/-- jsAllFinite on each array element. -/
def jsAllFiniteList : List Js → Bool
  | [] => true
  | e :: es => jsAllFinite e && jsAllFiniteList es

/-- jsAllFinite on each property value. -/
def jsAllFiniteObj : List (String × Js) → Bool
  | [] => true
  | (_, v) :: ms => jsAllFinite v && jsAllFiniteObj ms
end

/-- What FilterBuilder.build() actually returns, tracked up to aliasing: null,
a single condition object (the element conditions[0], which no later builder
operation mutates), or a composite object whose wrapper key is fixed at build
time but whose child list is the builder's own live conditions array - the
source returns an object literal holding this.conditions itself, not a copy. -/
inductive BuildResult where
  | nullFilter
  | leaf (c : Filter)
  | composite (op : LogicalOp)

/-- FilterBuilder.build() in the alias-aware reading: the same three cases as
build(), with the composite case recording only the wrapper key, because the
children are shared with the builder rather than snapshotted. -/
def FilterBuilder.buildAliased (s : FilterBuilder) : BuildResult :=
  match s.conditions, s.logicalOperator with
  | [], _ => .nullFilter
  | [c], _ => .leaf c
  | _, op => .composite op

/-- The Filter value a previously returned build() result denotes when the
builder's conditions array currently holds cs: a composite reads its children
through the shared array, so it denotes the wrapper applied to the current
cs. -/
def BuildResult.deref : BuildResult → List Filter → Option Filter
  | .nullFilter, _ => none
  | .leaf c, _ => some c
  | .composite op, cs => some (compositeFor op cs)

/-- Top-level child count of an optional filter: distinguishes composites with
different numbers of children. -/
def topChildCount : Option Filter → Nat
  | some (.must cs) => cs.length
  | some (.should cs) => cs.length
  | some (.must_not cs) => cs.length
  | _ => 0

/-! ### Helper lemmas -/

/-- The andAll loop appends, in order, exactly the non-null build results of
the argument builders, and leaves the logical operator unchanged. -/
theorem foldl_andAllStep (builders : List FilterBuilder) :
    ∀ s : FilterBuilder,
      builders.foldl andAllStep s
        = ⟨s.conditions ++ builders.filterMap FilterBuilder.build, s.logicalOperator⟩ := by
  induction builders with
  | nil => intro s; simp
  | cons b bs ih =>
    intro s
    cases hb : b.build with
    | none => simp [List.foldl_cons, andAllStep, hb, ih]
    | some f => simp [List.foldl_cons, andAllStep, hb, ih]

/-- The orAny collection loop produces exactly the non-null build results of
the argument builders, in order, after the initial accumulator. -/
theorem foldl_orAnyStep (builders : List FilterBuilder) :
    ∀ acc : List Filter,
      builders.foldl orAnyStep acc = acc ++ builders.filterMap FilterBuilder.build := by
  induction builders with
  | nil => intro acc; simp
  | cons b bs ih =>
    intro acc
    cases hb : b.build with
    | none => simp [List.foldl_cons, orAnyStep, hb, ih]
    | some f => simp [List.foldl_cons, orAnyStep, hb, ih]

/-- The validation loop stops at the first invalid condition: when every
condition before it validates and it throws, the loop throws that error,
whatever comes after it. -/
theorem validateConditions_append (pre : List Filter) (c : Filter) (post : List Filter)
    (e : FilterValidationError)
    (hpre : ∀ d ∈ pre, validateFilterCondition d = .ok ())
    (hc : validateFilterCondition c = .error e) :
    validateConditions (pre ++ c :: post) = .error e := by
  induction pre with
  | nil => simp [validateConditions, hc]
  | cons d ds ih =>
    have hd : validateFilterCondition d = .ok () := hpre d (by simp)
    have hds : ∀ x ∈ ds, validateFilterCondition x = .ok () :=
      fun x hx => hpre x (by simp [hx])
    simpa [validateConditions, hd] using ih hds

/-- Reading a build result against the builder's current conditions array
recovers the snapshot value of build(): the two readings of the source
coincide at the moment build() returns. -/
theorem buildAliased_deref_current (s : FilterBuilder) :
    (s.buildAliased).deref s.conditions = s.build := by
  obtain ⟨cs, op⟩ := s
  rcases cs with _ | ⟨a, _ | ⟨b, rest⟩⟩
  · rfl
  · rfl
  · cases op <;> rfl

/-- validateGeoPoint accepts exactly the points with finite latitude and
longitude inside the geographic bounds. -/
theorem validateGeoPoint_ok_iff (p : GeoPoint) (ctx : String) :
    validateGeoPoint p ctx = .ok () ↔
      (p.lat.isFinite = true ∧ p.lon.isFinite = true ∧
       JsNum.lt p.lat (.fin (-90)) = false ∧ JsNum.lt (.fin 90) p.lat = false ∧
       JsNum.lt p.lon (.fin (-180)) = false ∧ JsNum.lt (.fin 180) p.lon = false) := by
  unfold validateGeoPoint
  cases h1 : p.lat.isFinite <;> cases h2 : p.lon.isFinite <;>
    cases h3 : JsNum.lt p.lat (.fin (-90)) <;> cases h4 : JsNum.lt (.fin 90) p.lat <;>
    cases h5 : JsNum.lt p.lon (.fin (-180)) <;> cases h6 : JsNum.lt (.fin 180) p.lon <;>
    simp [h1, h2, h3, h4, h5, h6]

mutual
/-- JSON.parse after JSON.stringify is the identity on a runtime value whose
numbers are all finite. -/
theorem stringifyParse_id : ∀ j : Js, jsAllFinite j = true → stringifyParse j = j
  | .null, _ => rfl
  | .bool _, _ => rfl
  | .num n, h => by
    cases n with
    | fin q => rfl
    | nan => simp [jsAllFinite, JsNum.isFinite] at h
    | posInf => simp [jsAllFinite, JsNum.isFinite] at h
    | negInf => simp [jsAllFinite, JsNum.isFinite] at h
  | .str _, _ => rfl
  | .arr elems, h => by
    have hl := stringifyParseList_id elems (by simpa [jsAllFinite] using h)
    simp [stringifyParse, hl]
  | .obj fields, h => by
    have hl := stringifyParseObj_id fields (by simpa [jsAllFinite] using h)
    simp [stringifyParse, hl]

/-- List version of stringifyParse_id. -/
theorem stringifyParseList_id :
    ∀ es : List Js, jsAllFiniteList es = true → stringifyParseList es = es
  | [], _ => rfl
  | e :: es, h => by
    have h1 : jsAllFinite e = true := by
      have hh := h; simp [jsAllFiniteList, Bool.and_eq_true] at hh; exact hh.1
    have h2 : jsAllFiniteList es = true := by
      have hh := h; simp [jsAllFiniteList, Bool.and_eq_true] at hh; exact hh.2
    simp [stringifyParseList, stringifyParse_id e h1, stringifyParseList_id es h2]

/-- Object version of stringifyParse_id. -/
theorem stringifyParseObj_id :
    ∀ ms : List (String × Js), jsAllFiniteObj ms = true → stringifyParseObj ms = ms
  | [], _ => rfl
  | (k, v) :: ms, h => by
    have h1 : jsAllFinite v = true := by
      have hh := h; simp [jsAllFiniteObj, Bool.and_eq_true] at hh; exact hh.1
    have h2 : jsAllFiniteObj ms = true := by
      have hh := h; simp [jsAllFiniteObj, Bool.and_eq_true] at hh; exact hh.2
    simp [stringifyParseObj, stringifyParse_id v h1, stringifyParseObj_id ms h2]
end

/-! ### Claims -/

/-- Claim C1: for every builder state with at least two accumulated
conditions, build() returns the composite keyed solely by the logical mode
current at the moment of the call (must for AND, should for OR, must_not for
NOT), wrapping the entire conditions list.  The builder state does not record
the mode that was active when an individual condition was appended, so the
result cannot depend on it. -/
theorem build_wraps_current_mode (s : FilterBuilder) (h : 2 ≤ s.conditions.length) :
    s.build = some (compositeFor s.logicalOperator s.conditions) := by
  obtain ⟨cs, op⟩ := s
  rcases cs with _ | ⟨a, _ | ⟨b, rest⟩⟩
  · simp at h
  · simp at h
  · cases op <;> rfl

/-- Witness for C1: a two-condition builder in OR mode builds a should
composite over both conditions. -/
theorem build_wraps_current_mode_witness :
    (FilterBuilder.mk [.match_ "a" (.str "1"), .match_ "b" (.str "2")] .should).build
      = some (compositeFor .should [.match_ "a" (.str "1"), .match_ "b" (.str "2")]) :=
  build_wraps_current_mode ⟨[.match_ "a" (.str "1"), .match_ "b" (.str "2")], .should⟩ (by decide)

/-- Claim C2 counterexample: a composite filter returned by build() is not
immutable.  build() on a two-condition builder returns an object holding the
builder's live conditions array; after a subsequent addCondition the value read
through that object differs from the value it had when build() returned (the
child list gained the new condition). -/
theorem build_aliased_mutation_counterexample :
    BuildResult.deref
        (FilterBuilder.buildAliased ⟨[.match_ "a" (.str "1"), .match_ "b" (.str "2")], .must⟩)
        ((FilterBuilder.addCondition ⟨[.match_ "a" (.str "1"), .match_ "b" (.str "2")], .must⟩
            (.match_ "c" (.str "3"))).conditions)
      ≠
    BuildResult.deref
        (FilterBuilder.buildAliased ⟨[.match_ "a" (.str "1"), .match_ "b" (.str "2")], .must⟩)
        [.match_ "a" (.str "1"), .match_ "b" (.str "2")] := by
  intro h
  exact absurd (congrArg topChildCount h) (by decide)

/-- Claim C2 amended: a leaf filter returned by a single-condition build() is
unaffected by later operations on the builder, and the wrapper key of a
composite is fixed at build time; but the composite returned when two or more
conditions are accumulated shares the builder's live conditions array, so a
later addCondition is visible through the returned filter: its child list is
the builder's current conditions, not a snapshot. -/
theorem build_result_aliasing (s : FilterBuilder) (c : Filter) :
    (∀ c0, s.conditions = [c0] → ∀ cs2, (s.buildAliased).deref cs2 = some c0) ∧
    (2 ≤ s.conditions.length →
      s.buildAliased = .composite s.logicalOperator ∧
      (s.buildAliased).deref (s.addCondition c).conditions
        = some (compositeFor s.logicalOperator (s.conditions ++ [c]))) := by
  obtain ⟨cs, op⟩ := s
  constructor
  · intro c0 hcs cs2
    replace hcs : cs = [c0] := hcs
    subst hcs
    rfl
  · intro h
    rcases cs with _ | ⟨a, _ | ⟨b, rest⟩⟩
    · simp at h
    · simp at h
    · exact ⟨rfl, rfl⟩

/-- Witness for the amended C2: on a concrete two-condition builder the build
result is a must composite, and reading it after addCondition shows the
appended third condition. -/
theorem build_result_aliasing_witness :
    FilterBuilder.buildAliased ⟨[.match_ "a" (.str "1"), .match_ "b" (.str "2")], .must⟩
        = .composite .must ∧
    BuildResult.deref
        (FilterBuilder.buildAliased ⟨[.match_ "a" (.str "1"), .match_ "b" (.str "2")], .must⟩)
        ((FilterBuilder.addCondition ⟨[.match_ "a" (.str "1"), .match_ "b" (.str "2")], .must⟩
            (.match_ "c" (.str "3"))).conditions)
        = some (compositeFor .must
            ([.match_ "a" (.str "1"), .match_ "b" (.str "2")] ++ [.match_ "c" (.str "3")])) :=
  (build_result_aliasing ⟨[.match_ "a" (.str "1"), .match_ "b" (.str "2")], .must⟩
      (.match_ "c" (.str "3"))).2 (by decide)

/-- Claim C3 counterexample: serialization is not lossless for every
constructible filter.  where(price).greaterThan(Infinity) is constructible
(greaterThan performs no eager check), but JSON.stringify prints Infinity as
null, so JSON.parse(serializeFilter(f)) is not deep-equal to f. -/
theorem serialize_roundtrip_counterexample :
    (((FilterBuilder.mk [] .must).whereField "price").greaterThan .posInf).build
        = some (.range_ "price" none none (some .posInf) none) ∧
    stringifyParse (Filter.toJs (.range_ "price" none none (some .posInf) none))
      ≠ Filter.toJs (.range_ "price" none none (some .posInf) none) := by
  refine ⟨rfl, ?_⟩
  intro h
  exact absurd (congrArg jsAllFinite h) (by decide)

/-- Claim C3 amended: JSON.parse(serializeFilter(f)) is deep-equal to f for
every constructible Filter value all of whose numeric leaves are finite;
non-finite numbers (NaN, Infinity, -Infinity) are printed as null by
JSON.stringify and so are lost. -/
theorem serialize_roundtrip_finite (f : Filter)
    (h : jsAllFinite (Filter.toJs f) = true) :
    stringifyParse (Filter.toJs f) = Filter.toJs f :=
  stringifyParse_id (Filter.toJs f) h

/-- Witness for the amended C3: the round trip preserves a concrete match
filter. -/
theorem serialize_roundtrip_finite_witness :
    stringifyParse (Filter.toJs (.match_ "ticker" (.str "NVDA")))
      = Filter.toJs (.match_ "ticker" (.str "NVDA")) :=
  serialize_roundtrip_finite (.match_ "ticker" (.str "NVDA")) rfl

/-- Claim C4: build() returns null on zero accumulated conditions, and on
exactly one accumulated condition it returns that condition itself, never a
single-child composite, whatever the current logical mode. -/
theorem build_zero_and_one_condition (op : LogicalOp) (c : Filter) :
    (FilterBuilder.mk [] op).build = none ∧
    (FilterBuilder.mk [c] op).build = some c :=
  ⟨rfl, rfl⟩

/-- Claim C5: inRange throws FilterValidationError exactly when min > max
(ECMAScript comparison) and withinRadius throws exactly when radius <= 0; in
each throwing case the owning builder is returned unchanged (the source throws
before constructing or appending the condition), and otherwise the appended
conditions are Range{gte: min, lte: max} and the GeoRadius condition. -/
theorem inRange_withinRadius_eager_validation (fld : String) (s : FilterBuilder)
    (min max : JsNum) (center : GeoPoint) (radius : JsNum) :
    (JsNum.gt min max = true →
      ((s.whereField fld).inRange min max
        = (s, some ⟨"Range minimum cannot be greater than maximum", some "range", some fld⟩))) ∧
    (JsNum.gt min max = false →
      ((s.whereField fld).inRange min max
        = (s.addCondition (.range_ fld (some min) (some max) none none), none))) ∧
    (JsNum.le radius (.fin 0) = true →
      ((s.whereField fld).withinRadius center radius
        = (s, some ⟨"Radius must be positive", some "geo_radius", some fld⟩))) ∧
    (JsNum.le radius (.fin 0) = false →
      ((s.whereField fld).withinRadius center radius
        = (s.addCondition (.geo_radius fld center radius), none))) := by
  refine ⟨?_, ?_, ?_, ?_⟩ <;> intro h <;>
    simp [FilterBuilder.whereField, FieldFilter.inRange, FieldFilter.withinRadius, h]

/-- Witness for C5: inRange(5, 3) and withinRadius(center, -100) both throw on
an empty builder, leaving its conditions empty. -/
theorem inRange_withinRadius_eager_validation_witness :
    ((FilterBuilder.mk [] .must).whereField "price").inRange (.fin 5) (.fin 3)
        = (FilterBuilder.mk [] .must,
           some ⟨"Range minimum cannot be greater than maximum", some "range", some "price"⟩) ∧
    ((FilterBuilder.mk [] .must).whereField "location").withinRadius ⟨.fin 0, .fin 0⟩ (.fin (-100))
        = (FilterBuilder.mk [] .must,
           some ⟨"Radius must be positive", some "geo_radius", some "location"⟩) :=
  ⟨(inRange_withinRadius_eager_validation "price" ⟨[], .must⟩ (.fin 5) (.fin 3)
        ⟨.fin 0, .fin 0⟩ (.fin 1)).1 (by decide),
   (inRange_withinRadius_eager_validation "location" ⟨[], .must⟩ (.fin 1) (.fin 2)
        ⟨.fin 0, .fin 0⟩ (.fin (-100))).2.2.1 (by decide)⟩

/-- Claim C6 counterexample: the validator accepts a GeoRadius condition whose
radius is Infinity - a positive-but-non-finite radius - because the only check
on the radius is that radius <= 0 be false, with no finiteness check; so it is
not true that every accepted radius is a positive finite number. -/
theorem geo_radius_nonfinite_accepted :
    validateFilterCondition (.geo_radius "location" ⟨.fin 0, .fin 0⟩ .posInf) = .ok () ∧
    JsNum.isFinite .posInf = false :=
  ⟨rfl, rfl⟩

/-- Claim C6 amended: the validator accepts a GeoRadius condition exactly when
its key is a non-empty string, its center has a finite latitude in [-90, 90]
and a finite longitude in [-180, 180], and its radius is not <= 0 under
ECMAScript comparison; the radius is not checked for finiteness, so NaN and
Infinity radii are accepted alongside positive finite ones. -/
theorem geo_radius_validation_iff (key : String) (center : GeoPoint) (radius : JsNum) :
    validateFilterCondition (.geo_radius key center radius) = .ok () ↔
      (¬ key = "" ∧ center.lat.isFinite = true ∧ center.lon.isFinite = true ∧
       JsNum.lt center.lat (.fin (-90)) = false ∧ JsNum.lt (.fin 90) center.lat = false ∧
       JsNum.lt center.lon (.fin (-180)) = false ∧ JsNum.lt (.fin 180) center.lon = false ∧
       JsNum.le radius (.fin 0) = false) := by
  by_cases hk : key = ""
  · simp [validateFilterCondition, hk]
  · cases hv : validateGeoPoint center "center" with
    | error e =>
      have hne : ¬ (center.lat.isFinite = true ∧ center.lon.isFinite = true ∧
          JsNum.lt center.lat (.fin (-90)) = false ∧ JsNum.lt (.fin 90) center.lat = false ∧
          JsNum.lt center.lon (.fin (-180)) = false ∧
          JsNum.lt (.fin 180) center.lon = false) := by
        rw [← validateGeoPoint_ok_iff center "center"]
        simp [hv]
      simp only [validateFilterCondition, hk, hv]
      simp
      tauto
    | ok u =>
      cases u
      obtain ⟨g1, g2, g3, g4, g5, g6⟩ := (validateGeoPoint_ok_iff center "center").mp hv
      cases h7 : JsNum.le radius (.fin 0) <;>
        simp [validateFilterCondition, hk, hv, h7, g1, g2, g3, g4, g5, g6]

/-- Witness for the amended C6: a structurally valid GeoRadius condition with a
finite positive radius is accepted. -/
theorem geo_radius_validation_iff_witness :
    validateFilterCondition (.geo_radius "location" ⟨.fin (-73), .fin 40⟩ (.fin 1000)) = .ok () :=
  (geo_radius_validation_iff "location" ⟨.fin (-73), .fin 40⟩ (.fin 1000)).mpr
    ⟨by decide, rfl, rfl, by decide, by decide, by decide, by decide, by decide⟩

/-- Claim C7: combineFiltersAnd and combineFiltersOr throw FilterValidationError
exactly on the empty list, return the sole element of a singleton unwrapped,
and wrap a list of two or more filters in must and should respectively. -/
theorem combineFilters_empty_singleton_wrap (f g : Filter) (rest : List Filter) :
    combineFiltersAnd [] = .error ⟨"Cannot combine empty filter array", none, none⟩ ∧
    combineFiltersAnd [f] = .ok f ∧
    combineFiltersAnd (f :: g :: rest) = .ok (.must (f :: g :: rest)) ∧
    combineFiltersOr [] = .error ⟨"Cannot combine empty filter array", none, none⟩ ∧
    combineFiltersOr [f] = .ok f ∧
    combineFiltersOr (f :: g :: rest) = .ok (.should (f :: g :: rest)) :=
  ⟨rfl, rfl, rfl, rfl, rfl, rfl⟩

/-- Claim C8: andAll appends one entry per argument builder whose build() is
non-null, each individually, preserving order and the logical operator; orAny
collects the non-null build() results and, exactly when the collection is
non-empty, appends one should node containing them all; null build() results
contribute nothing in either case. -/
theorem andAll_orAny_append_spec (s : FilterBuilder) (builders : List FilterBuilder) :
    s.andAll builders
        = ⟨s.conditions ++ builders.filterMap FilterBuilder.build, s.logicalOperator⟩ ∧
    s.orAny builders
        = (if 0 < (builders.filterMap FilterBuilder.build).length then
              ⟨s.conditions ++ [Filter.should (builders.filterMap FilterBuilder.build)],
               s.logicalOperator⟩
           else s) := by
  constructor
  · exact foldl_andAllStep builders s
  · show (let orConditions := builders.foldl orAnyStep [];
      if 0 < orConditions.length then
        ⟨s.conditions ++ [Filter.should orConditions], s.logicalOperator⟩
      else s) = _
    rw [foldl_orAnyStep builders []]
    simp

/-- Claim C9: validate() throws on an empty conditions list; otherwise it
validates the accumulated conditions in insertion order and throws the first
condition's error, leaving everything after it unexamined; build() never
invokes validate(), so a builder holding a Match with empty key still builds
and returns that malformed filter even though the validator rejects it. -/
theorem validate_failfast_build_unchecked (op : LogicalOp) (pre : List Filter) (c : Filter)
    (post : List Filter) (e : FilterValidationError) (v : JsValue) :
    (FilterBuilder.mk [] op).validate
        = .error ⟨"Filter must have at least one condition", none, none⟩ ∧
    ((∀ d ∈ pre, validateFilterCondition d = .ok ()) →
      validateFilterCondition c = .error e →
      (FilterBuilder.mk (pre ++ c :: post) op).validate = .error e) ∧
    (FilterBuilder.mk [.match_ "" v] op).build = some (.match_ "" v) ∧
    validateFilterCondition (.match_ "" v)
        = .error ⟨"Match filter must have a valid key", some "match", none⟩ := by
  refine ⟨rfl, ?_, rfl, rfl⟩
  intro hpre hc
  unfold FilterBuilder.validate
  rw [if_neg (by simp)]
  exact validateConditions_append pre c post e hpre hc

/-- Witness for C9: with one valid condition before it, a Match with empty key
makes validate() throw the match-key error even though an invalid geo radius
condition sits after it, unexamined. -/
theorem validate_failfast_build_unchecked_witness :
    (FilterBuilder.mk
        ([.match_ "k" (.str "x")] ++ .match_ "" (.str "y")
          :: [.geo_radius "g" ⟨.fin 0, .fin 0⟩ (.fin (-5))]) .must).validate
      = .error ⟨"Match filter must have a valid key", some "match", none⟩ :=
  (validate_failfast_build_unchecked .must [.match_ "k" (.str "x")] (.match_ "" (.str "y"))
      [.geo_radius "g" ⟨.fin 0, .fin 0⟩ (.fin (-5))]
      ⟨"Match filter must have a valid key", some "match", none⟩ (.str "z")).2.1
    (by intro d hd; simp only [List.mem_singleton] at hd; subst hd; rfl) rfl

/-- Claim C10: validateFilterCondition returns normally on every value carrying
none of the four leaf tags - in this model, on every composite - whatever its
children contain; consequently FilterBuilder.validate() accepts a builder whose
conditions are composites over arbitrary malformed sub-trees, such as those
introduced by addCondition or notEquals. -/
theorem composite_validation_vacuous (cs ds es : List Filter) (op : LogicalOp)
    (fld : String) (v : JsValue) :
    validateFilterCondition (.must cs) = .ok () ∧
    validateFilterCondition (.should ds) = .ok () ∧
    validateFilterCondition (.must_not es) = .ok () ∧
    ((FilterBuilder.mk [] op).addCondition (.must cs)).validate = .ok () ∧
    (((FilterBuilder.mk [] op).whereField fld).notEquals v).validate = .ok () := by
  refine ⟨rfl, rfl, rfl, ?_, ?_⟩
  · simp [FilterBuilder.addCondition, FilterBuilder.validate, validateConditions,
      validateFilterCondition]
  · simp [FieldFilter.notEquals, FilterBuilder.whereField, FilterBuilder.addCondition,
      FilterBuilder.validate, validateConditions, validateFilterCondition]

end Mnemo
